import Mathlib

/-!
Verification development for the receipt-image repository.

The embedding below translates, from the TypeScript source:
* `src/frontend/app/components/ParseFormValidator.tsx` — the payload
  validator (`validators.*`, the per-kind `check*ElementError` functions,
  `isBatchParsePayloadItem`, `isBatchParsePayloadItemArray`);
* `src/ReceiptBuilder.tsx` — the `ReceiptBuilder` document builder
  (`addText`, `addHeading`, `addDivider`, `addImage`, `addSVG`,
  `addColumns`, `build`);
* `src/ImageGenerator.tsx` — the per-item generation dispatch, with the
  QR and barcode symbol generators abstracted as oracles;
* `src/ParseRoute.tsx` and the `ParseForm` component — the batch flow:
  the form validates the whole raw array with
  `isBatchParsePayloadItemArray` and only a batch that validated cleanly
  is handed to the parse loop, which renders the items in order.

Untyped JavaScript values reaching the validator are modelled by the
inductive `Value` (JSON-shaped data; a missing object property is
`Option.none`, JS `null` is `Value.vNull`).  JS numbers are modelled as
`Int`: every range check in the source compares integers.  Validator
functions return `String` exactly as the source does, with `""` meaning
"valid" (JS string truthiness).
-/

namespace ReceiptImage

/-- A JSON-shaped JavaScript runtime value, as received by the validator
after `JSON.parse`.  Object fields are an association list with distinct
keys (`JSON.parse` keeps one binding per key). -/
inductive Value where
  | vNull : Value
  | vBool (b : Bool) : Value
  | vNum (n : Int) : Value
  | vStr (s : String) : Value
  | vArr (elems : List Value) : Value
  | vObj (fields : List (String × Value)) : Value
deriving Repr

/-- JS property access `obj.key`: `none` models `undefined` (missing
property, or any access on a non-object in the places the source
guards). -/
def Value.get (v : Value) (key : String) : Option Value :=
  match v with
  | .vObj fields => fields.lookup key
  | _ => none

/-- JS `Array.prototype.join(sep)` restricted to string elements, as
used by the source (`classes.join(" ")`, `options.join(", ")`,
`htmls.join("")`, ...). -/
def joinWith (sep : String) : List String → String
  | [] => ""
  | [x] => x
  | x :: y :: rest => x ++ sep ++ joinWith sep (y :: rest)

/-- Template-literal stringification `${value}` of a JS value, used by
the validator for the unknown-kind message (`Invalid type '${type}'`). -/
def Value.jsString : Value → String
  | .vNull => "null"
  | .vBool true => "true"
  | .vBool false => "false"
  | .vNum n => toString n
  | .vStr s => s
  | .vArr xs => joinWith "," (xs.attach.map (fun e => e.1.jsString))
  | .vObj _ => "[object Object]"
decreasing_by
  simp only [Value.vArr.sizeOf_spec]
  have := List.sizeOf_lt_of_mem e.2
  omega

/-- `COMPONENT_TYPES` from `src/types/index.tsx`. -/
def COMPONENT_TYPES : List String :=
  ["heading", "text", "divider", "columns", "image", "qrcode", "barcode"]

/-- `ALIGNMENTS` from `src/types/index.tsx`. -/
def ALIGNMENTS : List String := ["left", "center", "right"]

/-- `TEXT_THICKNESSES` from `src/types/index.tsx`. -/
def TEXT_THICKNESSES : List String := ["normal", "bolder", "lighter"]

/-- `TEXT_SIZES` from `src/types/index.tsx`. -/
def TEXT_SIZES : List String := ["xs", "sm", "base", "lg", "xl"]

/-- `DIVIDER_THICKNESSES` from `src/types/index.tsx`. -/
def DIVIDER_THICKNESSES : List String := ["thin", "medium", "thick"]

/-- `DIVIDER_STYLES` from `src/types/index.tsx`. -/
def DIVIDER_STYLES : List String := ["solid", "dashed", "dotted", "double"]

/-- `BARCODE_TYPES` from `src/types/index.tsx`. -/
def BARCODE_TYPES : List String :=
  ["CODE128", "EAN", "EAN-13", "EAN-8", "EAN-5", "EAN-2", "UPC (A)",
   "UPC (E)", "CODE39", "ITF", "ITF-14", "MSI", "MSI10", "MSI11",
   "MSI1010", "MSI1110", "Pharmacode", "Codabar"]

namespace validators

/-- `validators.required`: rejects `undefined`, `null` and `""`. -/
def required (value : Option Value) (fieldName : String) : String :=
  match value with
  | none => fieldName ++ " is required"
  | some .vNull => fieldName ++ " is required"
  | some (.vStr "") => fieldName ++ " is required"
  | some _ => ""

/-- `validators.optional`: runs the inner validator only when the value
is neither `undefined` nor `null`. -/
def optional (value : Option Value) (validator : Value → String) : String :=
  match value with
  | none => ""
  | some .vNull => ""
  | some v => validator v

/-- `validators.string`: `typeof value !== "string"` check. -/
def string (value : Option Value) (fieldName : String) : String :=
  match value with
  | some (.vStr _) => ""
  | _ => fieldName ++ " must be a string"

/-- The `max` half of `validators.number`: `value > max` check, only
when a `max` bound was supplied. -/
def numberMax (n : Int) (fieldName : String) (max? : Option Int) : String :=
  match max? with
  | some m =>
    if m < n then fieldName ++ " must be at most " ++ toString m else ""
  | none => ""

/-- `validators.number`: type check, then the `min`, then the `max`
bound (each bound is checked only when supplied). -/
def number (value : Option Value) (fieldName : String)
    (min? : Option Int := none) (max? : Option Int := none) : String :=
  match value with
  | some (.vNum n) =>
    match min? with
    | some m =>
      if n < m then fieldName ++ " must be at least " ++ toString m
      else numberMax n fieldName max?
    | none => numberMax n fieldName max?
  | _ => fieldName ++ " must be a number"

/-- `validators.boolean`: `typeof value !== "boolean"` check. -/
def boolean (value : Option Value) (fieldName : String) : String :=
  match value with
  | some (.vBool _) => ""
  | _ => fieldName ++ " must be true or false"

/-- `validators.enum`: `options.includes(value)`; every call site passes
a list of string constants, so a non-string value is never a member. -/
def enum (value : Option Value) (options : List String)
    (fieldName : String) : String :=
  match value with
  | some (.vStr s) =>
    if options.contains s then ""
    else fieldName ++ " must be one of: " ++ joinWith ", " options
  | _ => fieldName ++ " must be one of: " ++ joinWith ", " options

/-- `validators.array`: `Array.isArray(value)` check. -/
def array (value : Option Value) (fieldName : String) : String :=
  match value with
  | some (.vArr _) => ""
  | _ => fieldName ++ " must be an array"

/-- JS `String.prototype.startsWith`, modelled on the character
sequence. -/
def jsStartsWith (s pre : String) : Bool :=
  pre.data.isPrefixOf s.data

/-- `validators.url`: string check, then the prefix test against
`http://`, `https://` and `data:`. -/
def url (value : Option Value) (fieldName : String) : String :=
  match value with
  | some (.vStr s) =>
    if !(jsStartsWith s "http://") && !(jsStartsWith s "https://")
        && !(jsStartsWith s "data:") then
      fieldName ++ " must be a valid URL or data URL"
    else ""
  | _ => fieldName ++ " must be a string"

end validators

/-- `checkHeadingElementError` from `ParseFormValidator.tsx`: required
`text`, string `text`, optional `size` in `[1,6]`, optional `align`
enum. -/
def checkHeadingElementError (data : Value) : String :=
  let textError := validators.required (data.get "text") "Heading text"
  if textError ≠ "" then textError
  else
    let textTypeError := validators.string (data.get "text") "Heading text"
    if textTypeError ≠ "" then textTypeError
    else
      let sizeError :=
        match data.get "size" with
        | none => ""
        | some _ =>
          validators.number (data.get "size") "Heading size" (some 1) (some 6)
      if sizeError ≠ "" then sizeError
      else
        match data.get "align" with
        | none => ""
        | some _ => validators.enum (data.get "align") ALIGNMENTS "Heading align"

/-- `checkTextElementError` from `ParseFormValidator.tsx`: every field
is optional; `text` may be the empty string. -/
def checkTextElementError (data : Value) : String :=
  let textError :=
    match data.get "text" with
    | none => ""
    | some _ => validators.string (data.get "text") "Text"
  if textError ≠ "" then textError
  else
    let sizeError :=
      match data.get "size" with
      | none => ""
      | some _ => validators.enum (data.get "size") TEXT_SIZES "Text size"
    if sizeError ≠ "" then sizeError
    else
      let thicknessError :=
        match data.get "thickness" with
        | none => ""
        | some _ =>
          validators.enum (data.get "thickness") TEXT_THICKNESSES "Text thickness"
      if thicknessError ≠ "" then thicknessError
      else
        let italicError :=
          match data.get "italic" with
          | none => ""
          | some _ => validators.boolean (data.get "italic") "Text italic"
        if italicError ≠ "" then italicError
        else
          let underlineError :=
            match data.get "underline" with
            | none => ""
            | some _ => validators.boolean (data.get "underline") "Text underline"
          if underlineError ≠ "" then underlineError
          else
            match data.get "align" with
            | none => ""
            | some _ => validators.enum (data.get "align") ALIGNMENTS "Text align"

/-- `checkDividerElementError` from `ParseFormValidator.tsx`. -/
def checkDividerElementError (data : Value) : String :=
  let thicknessError :=
    match data.get "thickness" with
    | none => ""
    | some _ =>
      validators.enum (data.get "thickness") DIVIDER_THICKNESSES "Divider thickness"
  if thicknessError ≠ "" then thicknessError
  else
    match data.get "style" with
    | none => ""
    | some _ => validators.enum (data.get "style") DIVIDER_STYLES "Divider style"

/-- `checkColumnElementError` from `ParseFormValidator.tsx`: a column is
validated as a `text` payload (errors prefixed with the 1-based column
index) plus its own `width` range check. -/
def checkColumnElementError (column : Value) (index : Nat) : String :=
  let textError := checkTextElementError column
  if textError ≠ "" then
    "Column " ++ toString (index + 1) ++ ": " ++ textError
  else
    match column.get "width" with
    | none => ""
    | some _ =>
      validators.number (column.get "width")
        ("Column " ++ toString (index + 1) ++ " width") (some 1) (some 100)

/-- The `for` loop of `checkColumnsElementError`: first column error
wins, scanning in order with 0-based `i`. -/
def checkColumnsLoop : List Value → Nat → String
  | [], _ => ""
  | c :: rest, i =>
    let columnError := checkColumnElementError c i
    if columnError ≠ "" then columnError else checkColumnsLoop rest (i + 1)

/-- `checkColumnsElementError` from `ParseFormValidator.tsx`: requires a
non-empty `data` array and validates each column in order. -/
def checkColumnsElementError (data : Value) : String :=
  let arrayError := validators.required (data.get "data") "Columns data"
  if arrayError ≠ "" then arrayError
  else
    let arrayTypeError := validators.array (data.get "data") "Columns data"
    if arrayTypeError ≠ "" then arrayTypeError
    else
      match data.get "data" with
      | some (.vArr cols) =>
        if cols.length = 0 then "Columns must have at least one column"
        else checkColumnsLoop cols 0
      | _ => ""

/-- `checkImageElementError` from `ParseFormValidator.tsx`: required
`src` with URL prefix check, optional `width` in `[1,100]`, optional
`align` enum. -/
def checkImageElementError (data : Value) : String :=
  let srcError := validators.required (data.get "src") "Image src"
  if srcError ≠ "" then srcError
  else
    let urlError := validators.url (data.get "src") "Image src"
    if urlError ≠ "" then urlError
    else
      let widthError :=
        match data.get "width" with
        | none => ""
        | some _ =>
          validators.number (data.get "width") "Image width" (some 1) (some 100)
      if widthError ≠ "" then widthError
      else
        match data.get "align" with
        | none => ""
        | some _ => validators.enum (data.get "align") ALIGNMENTS "Image align"

/-- `checkQRCodeElementError` from `ParseFormValidator.tsx`. -/
def checkQRCodeElementError (data : Value) : String :=
  let contentError := validators.required (data.get "content") "QR code content"
  if contentError ≠ "" then contentError
  else
    let contentTypeError := validators.string (data.get "content") "QR code content"
    if contentTypeError ≠ "" then contentTypeError
    else
      let widthError :=
        match data.get "width" with
        | none => ""
        | some _ =>
          validators.number (data.get "width") "QR code width" (some 1) (some 100)
      if widthError ≠ "" then widthError
      else
        match data.get "align" with
        | none => ""
        | some _ => validators.enum (data.get "align") ALIGNMENTS "QR code align"

/-- `checkBarCodeElementError` from `ParseFormValidator.tsx`. -/
def checkBarCodeElementError (data : Value) : String :=
  let contentError := validators.required (data.get "content") "Barcode content"
  if contentError ≠ "" then contentError
  else
    let contentTypeError := validators.string (data.get "content") "Barcode content"
    if contentTypeError ≠ "" then contentTypeError
    else
      let barcodeTypeError := validators.required (data.get "barcode_type") "Barcode type"
      if barcodeTypeError ≠ "" then barcodeTypeError
      else
        let barcodeTypeEnumError :=
          validators.enum (data.get "barcode_type") BARCODE_TYPES "Barcode type"
        if barcodeTypeEnumError ≠ "" then barcodeTypeEnumError
        else
          let widthError :=
            match data.get "width" with
            | none => ""
            | some _ =>
              validators.number (data.get "width") "Barcode width" (some 1) (some 100)
          if widthError ≠ "" then widthError
          else
            match data.get "align" with
            | none => ""
            | some _ => validators.enum (data.get "align") ALIGNMENTS "Barcode align"

/-- `isBatchParsePayloadItem` from `ParseFormValidator.tsx`: structural
check (an object carrying a `type` property — a JS array or primitive
fails it), then the `COMPONENT_TYPES` membership check on the
discriminator, then the kind-specific checks.  The `switch` default is
unreachable once membership holds, exactly as in the source. -/
def isBatchParsePayloadItem (item : Value) : String :=
  match item with
  | .vObj fields =>
    match (Value.vObj fields).get "type" with
    | none => "Each item must be an object with a \x27type\x27 property"
    | some t =>
      if !(match t with | .vStr s => COMPONENT_TYPES.contains s | _ => false) then
        "Invalid type \x27" ++ t.jsString ++ "\x27. Must be one of: "
          ++ joinWith ", " COMPONENT_TYPES
      else
        match t with
        | .vStr "heading" => checkHeadingElementError (Value.vObj fields)
        | .vStr "text" => checkTextElementError (Value.vObj fields)
        | .vStr "divider" => checkDividerElementError (Value.vObj fields)
        | .vStr "columns" => checkColumnsElementError (Value.vObj fields)
        | .vStr "image" => checkImageElementError (Value.vObj fields)
        | .vStr "qrcode" => checkQRCodeElementError (Value.vObj fields)
        | .vStr "barcode" => checkBarCodeElementError (Value.vObj fields)
        | _ => "Unhandled element type: " ++ t.jsString
  | _ => "Each item must be an object with a \x27type\x27 property"

/-- The `for` loop of `isBatchParsePayloadItemArray`: the first invalid
item is reported with its 1-based position. -/
def isBatchLoop : List Value → Nat → String
  | [], _ => ""
  | v :: rest, i =>
    let error := isBatchParsePayloadItem v
    if error ≠ "" then "Element " ++ toString (i + 1) ++ ": " ++ error
    else isBatchLoop rest (i + 1)

/-- `isBatchParsePayloadItemArray` from `ParseFormValidator.tsx`: the
input must be a non-empty array and every item must validate; the first
failure is reported with its 1-based position. -/
def isBatchParsePayloadItemArray (values : Value) : String :=
  match values with
  | .vArr items =>
    if items.length = 0 then "The array must contain at least one element"
    else isBatchLoop items 0
  | _ => "The JSON must be an array of receipt elements"

/-- The `Alignment` union from `src/types/index.tsx`. -/
inductive Alignment where
  | left | center | right
deriving DecidableEq, Repr

/-- The string carried by an `Alignment` member. -/
def Alignment.str : Alignment → String
  | .left => "left"
  | .center => "center"
  | .right => "right"

/-- The `TextThickness` union from `src/types/index.tsx`. -/
inductive TextThickness where
  | normal | bolder | lighter
deriving DecidableEq, Repr

/-- The string carried by a `TextThickness` member. -/
def TextThickness.str : TextThickness → String
  | .normal => "normal"
  | .bolder => "bolder"
  | .lighter => "lighter"

/-- The `TextSize` union from `src/types/index.tsx`. -/
inductive TextSize where
  | xs | sm | base | lg | xl
deriving DecidableEq, Repr

/-- The string carried by a `TextSize` member. -/
def TextSize.str : TextSize → String
  | .xs => "xs"
  | .sm => "sm"
  | .base => "base"
  | .lg => "lg"
  | .xl => "xl"

/-- The `DividerThickness` union from `src/types/index.tsx`. -/
inductive DividerThickness where
  | thin | medium | thick
deriving DecidableEq, Repr

/-- The string carried by a `DividerThickness` member. -/
def DividerThickness.str : DividerThickness → String
  | .thin => "thin"
  | .medium => "medium"
  | .thick => "thick"

/-- The `DividerStyle` union from `src/types/index.tsx`. -/
inductive DividerStyle where
  | solid | dashed | dotted | double
deriving DecidableEq, Repr

/-- The string carried by a `DividerStyle` member. -/
def DividerStyle.str : DividerStyle → String
  | .solid => "solid"
  | .dashed => "dashed"
  | .dotted => "dotted"
  | .double => "double"

/-- `Omit<TextPayload, "text">`, the options record taken by
`ReceiptBuilder.addText`.  An absent TS property is `none`; a call that
omits the whole `opts` argument behaves as the all-`none` record, since
every access in the source goes through `opts?.field`. -/
structure TextOpts where
  size : Option TextSize := none
  align : Option Alignment := none
  thickness : Option TextThickness := none
  italic : Option Bool := none
  underline : Option Bool := none
deriving DecidableEq, Repr

/-- `Omit<HeadingPayload, "text">`, the options record taken by
`ReceiptBuilder.addHeading`. -/
structure HeadingOpts where
  size : Option Int := none
  align : Option Alignment := none
deriving DecidableEq, Repr

/-- `DividerPayload`, the options record taken by
`ReceiptBuilder.addDivider`. -/
structure DividerOpts where
  thickness : Option DividerThickness := none
  style : Option DividerStyle := none
deriving DecidableEq, Repr

/-- `ColumnPayload` from `src/types/index.tsx`: a `TextPayload` plus an
optional percentage `width`. -/
structure ColumnPayload where
  text : Option String := none
  size : Option TextSize := none
  align : Option Alignment := none
  thickness : Option TextThickness := none
  italic : Option Bool := none
  underline : Option Bool := none
  width : Option Int := none
deriving DecidableEq, Repr

/-- The document header pushed by the `ReceiptBuilder` constructor
(`src/ReceiptBuilder.tsx`): the fixed stylesheet plus the viewport meta
tag interpolating `this.width`.  `\x7b`/`\x7d` stand for the CSS braces
of the template literal. -/
def headerHtml (width : Int) : String :=
  "<!DOCTYPE html><html><head><style>\n"
  ++ "      body \x7b font-family: monospace; font-size: 12px; margin: 0px 0px 2px 0px; padding: 0px 0px 2px 0px; color: black; \x7d\n"
  ++ "      h1, h2, h3, h4, h5, h6 \x7b padding: 0px; margin: 0px; \x7d\n"
  ++ "      .center \x7b text-align: center; \x7d\n"
  ++ "      .right \x7b text-align: right; \x7d\n"
  ++ "      .left \x7b text-align: left; \x7d\n"
  ++ "      .bold \x7b font-weight: bold; \x7d\n"
  ++ "      .lighter \x7b font-weight: lighter; color: gray \x7d\n"
  ++ "      .italic \x7b font-style: italic; \x7d\n"
  ++ "      .underline \x7b text-decoration: underline; \x7d\n"
  ++ "      .divider \x7b border-top: 1px dashed #000; margin: 8px 0; \x7d\n"
  ++ "      .text-content \x7b word-wrap: break-word; white-space: normal; \x7d\n"
  ++ "      .text-xs \x7b font-size: 0.75rem; \x7d\n"
  ++ "      .text-sm \x7b font-size: 0.875rem; \x7d\n"
  ++ "      .text-base \x7b font-size: 1rem; \x7d\n"
  ++ "      .text-lg \x7b font-size: 1.125rem; \x7d\n"
  ++ "      .text-xl \x7b font-size: 1.25rem; \x7d\n"
  ++ "      .two-col, .three-col \x7b display: flex; justify-content: space-between; \x7d\n"
  ++ "    </style></head><meta charset=\"UTF-8\">\n"
  ++ "    <meta name=\"viewport\" content=\"width=" ++ toString width
  ++ "px, initial-scale=1.0\"><body>"

/-- The `ReceiptBuilder` state: the constructor argument and the growing
`htmls` fragment list (the constructor has already pushed the header). -/
structure ReceiptBuilder where
  width : Int
  htmls : List String
deriving DecidableEq, Repr

/-- `new ReceiptBuilder(width)`: stores the width and pushes the header
document fragment. -/
def ReceiptBuilder.new (width : Int := 320) : ReceiptBuilder :=
  ⟨width, [headerHtml width]⟩

/-- The element string built by `addText`: class list in source order
(`text-content`, then align, thickness, italic, underline, size; a
truthy check guards each, so `italic: false` adds no class). -/
def textElement (content : String) (opts : TextOpts) : String :=
  let classes := ["text-content"]
    ++ (match opts.align with | some a => [a.str] | none => [])
    ++ (match opts.thickness with | some t => [t.str] | none => [])
    ++ (if opts.italic = some true then ["italic"] else [])
    ++ (if opts.underline = some true then ["underline"] else [])
    ++ (match opts.size with | some s => ["text-" ++ s.str] | none => [])
  "<div class=\"" ++ joinWith " " classes ++ "\">" ++ content ++ "</div>"

/-- `ReceiptBuilder.addText`: pushes one text element. -/
def ReceiptBuilder.addText (b : ReceiptBuilder) (content : String)
    (opts : TextOpts := {}) : ReceiptBuilder :=
  { b with htmls := b.htmls ++ [textElement content opts] }

/-- The element string built by `addHeading`.  `opts?.size || 1` makes
both an absent and a `0` size fall back to `1` (JS falsiness). -/
def headingElement (content : String) (opts : HeadingOpts) : String :=
  let size : Int := match opts.size with
    | some n => if n = 0 then 1 else n
    | none => 1
  let classes := ["text-content"]
    ++ (match opts.align with | some a => [a.str] | none => [])
  "<h" ++ toString size ++ " class=\"" ++ joinWith " " classes ++ "\">"
    ++ content ++ "</h" ++ toString size ++ ">"

/-- `ReceiptBuilder.addHeading`: pushes one heading element. -/
def ReceiptBuilder.addHeading (b : ReceiptBuilder) (content : String)
    (opts : HeadingOpts := {}) : ReceiptBuilder :=
  { b with htmls := b.htmls ++ [headingElement content opts] }

/-- The element string built by `addDivider`; thickness defaults to
`thin` and style to `solid` via `||`. -/
def dividerElement (opts : DividerOpts) : String :=
  let styles :=
    ["border-top-width: " ++ (match opts.thickness with | some t => t.str | none => "thin"),
     "border-top-style: " ++ (match opts.style with | some s => s.str | none => "solid")]
  "<div class=\"divider\" style=\"" ++ joinWith "; " styles ++ "\"></div>"

/-- `ReceiptBuilder.addDivider`: pushes one divider element. -/
def ReceiptBuilder.addDivider (b : ReceiptBuilder)
    (opts : DividerOpts := {}) : ReceiptBuilder :=
  { b with htmls := b.htmls ++ [dividerElement opts] }

/-- The element string built by `addImage`. -/
def imageElement (src : String) (width : Int) (alignment : Alignment) : String :=
  "<div class=\"" ++ alignment.str ++ "\"><img src=\"" ++ src
    ++ "\" style=\"max-width: " ++ toString width ++ "%; height: auto;\"/></div>"

/-- `ReceiptBuilder.addImage`: pushes one aligned image element; the JS
default parameters are `width = 100` and `alignment = "center"`. -/
def ReceiptBuilder.addImage (b : ReceiptBuilder) (src : String)
    (width : Int := 100) (alignment : Alignment := .center) : ReceiptBuilder :=
  { b with htmls := b.htmls ++ [imageElement src width alignment] }

/-- The per-column child element of `addColumns`.  `if (col.width)` is a
JS truthiness test, so a `0` width also falls back to `flex: 1`; the
width branch emits the bare number (`flex: 0 0 30`), no percent sign.
`${col.text}` stringifies an absent text as `undefined`. -/
def columnElement (col : ColumnPayload) : String :=
  let classes := ["text-content"]
    ++ (match col.align with | some a => [a.str] | none => [])
    ++ (match col.thickness with | some t => [t.str] | none => [])
    ++ (if col.italic = some true then ["italic"] else [])
    ++ (if col.underline = some true then ["underline"] else [])
    ++ (match col.size with | some s => ["text-" ++ s.str] | none => [])
  let styleParts := match col.width with
    | some w =>
      if w = 0 then ["flex: 1"]
      else ["flex: " ++ joinWith " " ["0", "0", toString w]]
    | none => ["flex: 1"]
  "<div style=\"" ++ joinWith "; " styleParts ++ "\" class=\""
    ++ joinWith " " classes ++ "\">"
    ++ (match col.text with | some s => s | none => "undefined") ++ "</div>"

/-- The flex-row container element built by `addColumns`. -/
def columnsElement (columns : List ColumnPayload) : String :=
  "<div style=\"display: flex; gap: 4px;\">"
    ++ joinWith "" (columns.map columnElement) ++ "</div>"

/-- `ReceiptBuilder.addColumns`: pushes one flex-row container element
with one child block per column. -/
def ReceiptBuilder.addColumns (b : ReceiptBuilder)
    (columns : List ColumnPayload) : ReceiptBuilder :=
  { b with htmls := b.htmls ++ [columnsElement columns] }

/-- `ReceiptBuilder.build`: pushes the closing tags into `htmls` (the
source mutates the field on every call) and returns the joined document
together with the mutated builder state. -/
def ReceiptBuilder.build (b : ReceiptBuilder) : String × ReceiptBuilder :=
  let htmls := b.htmls ++ ["</body></html>"]
  (joinWith "" htmls, { b with htmls := htmls })

/-- Splits a character list around the first occurrence of `pat`
(`before`, `after-the-pattern`); `none` when `pat` does not occur.
Models `String.prototype.replace` with a plain-string pattern and
locating the leftmost regex match. -/
def splitOnSub (pat : List Char) (s : List Char) : Option (List Char × List Char) :=
  match s with
  | [] => if pat.isEmpty then some ([], []) else none
  | c :: rest =>
    if pat.isPrefixOf (c :: rest) then some ([], (c :: rest).drop pat.length)
    else
      match splitOnSub pat rest with
      | some (pre, suf) => some (c :: pre, suf)
      | none => none

/-- The regex `/<svg\s*([^>]*?)>/` of `addSVG`: the match starts at the
first `<svg` that is followed (at any distance, `>`-free in between) by
a `>`; since neither `\s*` nor the lazy `[^>]*?` can cross a `>`, the
match extends to the first `>` after the first `<svg`.  Returns the
whole matched tag and the capture group (the attribute text after the
greedy whitespace run). -/
def svgTagMatch (s : String) : Option (String × String) :=
  match splitOnSub "<svg".data s.data with
  | none => none
  | some (_, afterTag) =>
    let attrs := afterTag.takeWhile (· != '>')
    match afterTag.drop attrs.length with
    | '>' :: _ =>
      some (String.mk ("<svg".data ++ attrs ++ ['>']),
            String.mk (attrs.dropWhile Char.isWhitespace))
    | _ => none

/-- One attempted match of `/\s*lit"..."/` at the current position: a
greedy whitespace run, the literal `lit` (e.g. `width="`), then
everything up to the closing quote.  Returns the remainder after the
match. -/
def quotedAttrAt (lit : List Char) (s : List Char) : Option (List Char) :=
  let afterWs := s.dropWhile Char.isWhitespace
  if lit.isPrefixOf afterWs then
    let afterLit := afterWs.drop lit.length
    let content := afterLit.takeWhile (· != '"')
    match afterLit.drop content.length with
    | '"' :: tail => some tail
    | _ => none
  else none

/-- `attributesString.replace(/\s*lit"[^"]*"/g, "")`: removes every
non-overlapping leftmost match, scanning left to right.  `fuel` bounds
the scan; callers pass the list length, which suffices because every
step consumes at least one character. -/
def stripQuotedAttr (lit : List Char) : Nat → List Char → List Char
  | 0, s => s
  | _ + 1, [] => []
  | fuel + 1, c :: rest =>
    match quotedAttrAt lit (c :: rest) with
    | some remainder => stripQuotedAttr lit fuel remainder
    | none => c :: stripQuotedAttr lit fuel rest

/-- The first match of `/lit"([^"]*)"/` (no whitespace run, used for
`style="..."`): returns the text before the match, the capture, and the
text after the match. -/
def findQuotedAttr (lit : List Char) : Nat → List Char → Option (List Char × List Char × List Char)
  | 0, _ => none
  | _ + 1, [] => none
  | fuel + 1, c :: rest =>
    let here :=
      if lit.isPrefixOf (c :: rest) then
        let afterLit := (c :: rest).drop lit.length
        let content := afterLit.takeWhile (· != '"')
        match afterLit.drop content.length with
        | '"' :: tail => some (content, tail)
        | _ => none
      else none
    match here with
    | some (content, tail) => some ([], content, tail)
    | none =>
      match findQuotedAttr lit fuel rest with
      | some (pre, content, suf) => some (c :: pre, content, suf)
      | none => none

/-- `newStyleContent.replace(/lit[^;]*;?/g, "")` for a property name
`lit` such as `max-width:`: each match runs to the next `;` (consumed
when present) or to the end of the string. -/
def stripStyleProp (lit : List Char) : Nat → List Char → List Char
  | 0, s => s
  | _ + 1, [] => []
  | fuel + 1, c :: rest =>
    if lit.isPrefixOf (c :: rest) then
      let afterLit := (c :: rest).drop lit.length
      let content := afterLit.takeWhile (· != ';')
      match afterLit.drop content.length with
      | ';' :: tail => stripStyleProp lit fuel tail
      | other => stripStyleProp lit fuel other
    else c :: stripStyleProp lit fuel rest

/-- `String.prototype.trim` on a character list. -/
def trimChars (s : List Char) : List Char :=
  ((s.dropWhile Char.isWhitespace).reverse.dropWhile Char.isWhitespace).reverse

/-- The fragment pushed by `addSVG` when the `<svg>` tag was found:
width/height attributes are stripped, the style attribute is extracted,
its `max-width`/`height` properties are replaced by
`max-width: {width}%; height: auto;`, the tag is reassembled, the first
occurrence of the original tag is replaced in the input, and the result
is wrapped in an alignment container.  Returns `none` when the input
has no `<svg ...>` tag: the source warns and returns without pushing. -/
def svgElement (svg : String) (width : Int) (alignment : Alignment) : Option String :=
  match svgTagMatch svg with
  | none => none
  | some (fullSvgTag, capture) =>
    let a1 := stripQuotedAttr "width=\"".data capture.data.length capture.data
    let a2 := stripQuotedAttr "height=\"".data a1.length a1
    let (currentStyleContent, a3) :=
      match findQuotedAttr "style=\"".data a2.length a2 with
      | some (pre, content, suf) => (content, pre ++ suf)
      | none => ([], a2)
    let ns1 := stripStyleProp "max-width:".data currentStyleContent.length currentStyleContent
    let ns2 := stripStyleProp "height:".data ns1.length ns1
    let ns3 := trimChars ns2
    let ns4 := if ns3.length > 0 && !(ns3.getLast? == some ';') then ns3 ++ [';'] else ns3
    let ns5 := ns4 ++ (" max-width: " ++ toString width ++ "%; height: auto;").data
    let newStyleContent := trimChars ns5
    let newStyleAttribute := "style=\"".data ++ newStyleContent ++ ['"']
    let newSvgTag := "<svg ".data ++ trimChars a3 ++ [' '] ++ newStyleAttribute ++ ['>']
    let newSvg :=
      match splitOnSub fullSvgTag.data svg.data with
      | some (pre, suf) => String.mk (pre ++ newSvgTag ++ suf)
      | none => svg
    some ("<div class=\"" ++ alignment.str ++ "\">" ++ newSvg ++ "</div>")

/-- `ReceiptBuilder.addSVG`: pushes the processed SVG fragment, or —
when the markup contains no `<svg>` tag — warns and returns with the
builder unchanged (no fragment is pushed). -/
def ReceiptBuilder.addSVG (b : ReceiptBuilder) (svg : String)
    (width : Int := 100) (alignment : Alignment := .center) : ReceiptBuilder :=
  match svgElement svg width alignment with
  | none => b
  | some element => { b with htmls := b.htmls ++ [element] }

/-- The flat `BatchParsePayloadItem` union from `src/types/index.tsx`:
one constructor per recognized kind, carrying that kind's payload with
the `type` discriminator already split off (`text` is destructured away
from the rest in the generator, mirrored here by separate arguments). -/
inductive BatchParsePayloadItem where
  | heading (text : Option String) (data : HeadingOpts)
  | text (text : Option String) (data : TextOpts)
  | divider (data : DividerOpts)
  | columns (data : List ColumnPayload)
  | image (src : String) (width : Option Int) (align : Option Alignment)
  | qrcode (content : String) (width : Option Int) (align : Option Alignment)
  | barcode (content : String) (width : Option Int) (align : Option Alignment)
      (barcode_type : String)
deriving DecidableEq, Repr

/-- Backslash/quote escaping of `JSON.stringify` for the string values
appearing in the generator's failure message. -/
def jsonEscape (s : String) : String :=
  String.mk (s.data.flatMap fun c =>
    if c = '"' then ['\\', '"']
    else if c = '\\' then ['\\', '\\']
    else [c])

mutual

/-- `JSON.stringify` on a `Value` (`\x7b`/`\x7d` stand for the object
braces), used by the generation dispatch when it throws on an
unrecognized kind. -/
def jsonStringify : Value → String
  | .vNull => "null"
  | .vBool true => "true"
  | .vBool false => "false"
  | .vNum n => toString n
  | .vStr s => "\"" ++ jsonEscape s ++ "\""
  | .vArr xs => "[" ++ joinWith "," (jsonStringifyList xs) ++ "]"
  | .vObj fields => "\x7b" ++ joinWith "," (jsonStringifyFields fields) ++ "\x7d"

/-- `JSON.stringify` of each array element. -/
def jsonStringifyList : List Value → List String
  | [] => []
  | v :: rest => jsonStringify v :: jsonStringifyList rest

/-- `JSON.stringify` of each object entry. -/
def jsonStringifyFields : List (String × Value) → List String
  | [] => []
  | (k, v) :: rest =>
    ("\"" ++ jsonEscape k ++ "\":" ++ jsonStringify v) :: jsonStringifyFields rest

end

/-- An item reaching the generation dispatch of `ImageGenerator.tsx`.
The TS `switch` is statically exhaustive over `BatchParsePayloadItem`
(`default` narrows to `never`), but at runtime an unvalidated object
with an unrecognized discriminator would still reach `default`;
`unknownKind` carries such a raw object. -/
inductive GenItem where
  | known (payload : BatchParsePayloadItem)
  | unknownKind (raw : Value)

/-- The outcome of one `ImageGenerator` run: the document handed to the
rasterizer (the screenshot step is the external collaborator, so the
built HTML stands for the produced image) plus the `console.warn`
messages emitted along the way. -/
structure GenResult where
  html : String
  warnings : List String
deriving DecidableEq, Repr

/-- `ImageGenerator` from `src/ImageGenerator.tsx`, with the two symbol
generators abstracted as oracles: `qr` models `qrcode.toDataURL` (a
data-URL on success, a caught-and-warned failure otherwise) and
`barcodeGen` models the `JsBarcode` call plus serialization (the SVG
text on success; a thrown error otherwise, which propagates and fails
the request).  Every item builds a fresh `new ReceiptBuilder()` (the
default 320 width; the request width only sets the viewport), adds at
most one fragment, and returns the built document. -/
def ImageGenerator (qr : String → Except String String)
    (barcodeGen : String → String → Except String String)
    (width : Int) (item : GenItem) : Except String GenResult :=
  match item with
  | .known payload =>
    let receipt := ReceiptBuilder.new
    match payload with
    | .text text data =>
      .ok ⟨((receipt.addText (text.getD "") data).build).1, []⟩
    | .heading text data =>
      .ok ⟨((receipt.addHeading (text.getD "") data).build).1, []⟩
    | .divider data =>
      .ok ⟨((receipt.addDivider data).build).1, []⟩
    | .columns data =>
      .ok ⟨((receipt.addColumns data).build).1, []⟩
    | .image src w align =>
      .ok ⟨((receipt.addImage src (w.getD 100) (align.getD .center)).build).1, []⟩
    | .qrcode content w align =>
      match qr content with
      | .ok qrdata =>
        .ok ⟨((receipt.addImage qrdata (w.getD 100) (align.getD .center)).build).1, []⟩
      | .error e => .ok ⟨(receipt.build).1, [e]⟩
    | .barcode content w align barcode_type =>
      match barcodeGen content barcode_type with
      | .ok svgText =>
        .ok ⟨((receipt.addSVG svgText (w.getD 100) (align.getD .center)).build).1, []⟩
      | .error e => .error e
  | .unknownKind raw =>
    .error ("Unhandled component type: " ++ jsonStringify raw)

/-- The batch flow for `/api/parse`: the `ParseForm` component runs
`isBatchParsePayloadItemArray` over the whole raw array and only a
batch that validated cleanly reaches the `Parse` route, whose `for`
loop renders the items strictly in order (`render` abstracts
`ImageGenerator` plus rasterization). -/
def ParsePipeline {α : Type} (render : Value → α) (body : Value) :
    Except String (List α) :=
  let error := isBatchParsePayloadItemArray body
  if error ≠ "" then .error error
  else
    match body with
    | .vArr items => .ok (items.map render)
    | _ => .ok []

/-- One public `addX` call of the Document Builder, with its
arguments. -/
inductive BuilderOp where
  | text (content : String) (opts : TextOpts)
  | heading (content : String) (opts : HeadingOpts)
  | divider (opts : DividerOpts)
  | image (src : String) (width : Int) (align : Alignment)
  | svg (svg : String) (width : Int) (align : Alignment)
  | columns (cols : List ColumnPayload)

/-- Performs one `addX` call on a builder state. -/
def BuilderOp.apply (b : ReceiptBuilder) : BuilderOp → ReceiptBuilder
  | .text content opts => b.addText content opts
  | .heading content opts => b.addHeading content opts
  | .divider opts => b.addDivider opts
  | .image src width align => b.addImage src width align
  | .svg s w a => b.addSVG s w a
  | .columns cols => b.addColumns cols

/-- Performs a sequence of `addX` calls, in call order. -/
def applyOps (b : ReceiptBuilder) (ops : List BuilderOp) : ReceiptBuilder :=
  ops.foldl BuilderOp.apply b

/-- The fragment an `addX` call pushes: exactly one for every call
except `addSVG` on markup without an `<svg>` tag, which pushes none. -/
def BuilderOp.fragment : BuilderOp → Option String
  | .text content opts => some (textElement content opts)
  | .heading content opts => some (headingElement content opts)
  | .divider opts => some (dividerElement opts)
  | .image src width align => some (imageElement src width align)
  | .svg s w a => svgElement s w a
  | .columns cols => some (columnsElement cols)

/-- The object properties a kind's check function consults — the
kind's schema fields.  `checkHeadingElementError` reads `text`, `size`,
`align`; `checkTextElementError` reads the text-styling fields;
`checkDividerElementError` reads `thickness`, `style`;
`checkColumnsElementError` reads only `data` (column objects live
inside it); the image/qrcode/barcode checks read their required field
plus `width`/`align` (and `barcode_type`). -/
def schemaFields : String → List String
  | "heading" => ["text", "size", "align"]
  | "text" => ["text", "size", "thickness", "italic", "underline", "align"]
  | "divider" => ["thickness", "style"]
  | "columns" => ["data"]
  | "image" => ["src", "width", "align"]
  | "qrcode" => ["content", "width", "align"]
  | "barcode" => ["content", "barcode_type", "width", "align"]
  | _ => []

/-- The acceptance condition the spec states for the image `src` field
— a non-empty string beginning with `http://`, `https://` or `data:` —
written from the spec's words, to be compared with the validator's
behaviour. -/
def specSrcAccepted (data : Value) : Bool :=
  match data.get "src" with
  | some (.vStr s) =>
    (s != "") && (validators.jsStartsWith s "http://"
      || validators.jsStartsWith s "https://"
      || validators.jsStartsWith s "data:")
  | _ => false

set_option maxRecDepth 10000

/-- A string with a non-empty left part stays non-empty after
appending. -/
lemma append_ne_empty (s t : String) (h : s ≠ "") : s ++ t ≠ "" := by
  intro heq
  apply h
  have hd := congrArg String.data heq
  rw [String.data_append] at hd
  have hs : s.data = [] := (List.append_eq_nil.mp hd).1
  cases s
  simp_all

/-- `Array.prototype.join("")` distributes over appending one final
element. -/
lemma joinWith_empty_concat (l : List String) (x : String) :
    joinWith "" (l ++ [x]) = joinWith "" l ++ x := by
  induction l with
  | nil => simp [joinWith]
  | cons a l ih =>
    rcases l with _ | ⟨b, l'⟩
    · simp [joinWith]
    · simp only [List.cons_append, List.append_eq, joinWith] at ih ⊢
      rw [ih]
      simp [String.append_assoc]

/-- One `addX` call appends exactly the fragments `BuilderOp.fragment`
describes: one element, except the tagless-SVG case which appends
none. -/
lemma BuilderOp.apply_htmls (b : ReceiptBuilder) (op : BuilderOp) :
    (BuilderOp.apply b op).htmls = b.htmls ++ op.fragment.toList := by
  cases op with
  | svg s w a =>
    cases h : svgElement s w a <;>
      simp [BuilderOp.apply, BuilderOp.fragment, ReceiptBuilder.addSVG, h]
  | text c o =>
    simp [BuilderOp.apply, BuilderOp.fragment, ReceiptBuilder.addText]
  | heading c o =>
    simp [BuilderOp.apply, BuilderOp.fragment, ReceiptBuilder.addHeading]
  | divider o =>
    simp [BuilderOp.apply, BuilderOp.fragment, ReceiptBuilder.addDivider]
  | image s w a =>
    simp [BuilderOp.apply, BuilderOp.fragment, ReceiptBuilder.addImage]
  | columns cols =>
    simp [BuilderOp.apply, BuilderOp.fragment, ReceiptBuilder.addColumns]

/-- A sequence of `addX` calls appends its fragments in call order and
touches nothing before them. -/
lemma applyOps_htmls (ops : List BuilderOp) (b : ReceiptBuilder) :
    (applyOps b ops).htmls = b.htmls ++ ops.filterMap BuilderOp.fragment := by
  induction ops generalizing b with
  | nil => simp [applyOps]
  | cons op rest ih =>
    have hstep : applyOps b (op :: rest) = applyOps (BuilderOp.apply b op) rest := by
      simp [applyOps]
    rw [hstep, ih, BuilderOp.apply_htmls]
    cases h : op.fragment <;> simp [List.filterMap_cons, h]

/-- C10.  Batch validation rejects the empty list with the
at-least-one-element error instead of succeeding vacuously. -/
theorem empty_batch_rejected :
    isBatchParsePayloadItemArray (.vArr []) =
      "The array must contain at least one element" := rfl

/-- C2 counterexample.  On a fresh builder (no `addX` calls at all),
calling `build()` twice returns a different string the second time:
the closing tags are pushed on every call. -/
theorem build_second_call_differs :
    (((ReceiptBuilder.new 320).build).2.build).1 ≠ ((ReceiptBuilder.new 320).build).1 := by
  decide

/-- C2 amended.  `build()` is not idempotent: on every builder state the
second call returns the first call's document with one more copy of the
closing tags appended, because each call pushes `"</body></html>"` into
`htmls`. -/
theorem build_appends_closing_each_call (b : ReceiptBuilder) :
    ((b.build).2.build).1 = (b.build).1 ++ "</body></html>" := by
  simp only [ReceiptBuilder.build]
  rw [List.append_assoc, ← List.append_assoc, joinWith_empty_concat]

/-- C4.  Evaluating `addColumns` at the spec's column-width-law input
`[{width: 30}, {}, {}]`: the two width-less columns do get `flex: 1`,
but the width-carrying column is emitted as `flex: 0 0 30` — a bare
number, not the percentage `30%` the spec states (`${col.width}` is
interpolated without a percent sign). -/
theorem addColumns_width_emits_unitless_flex_basis :
    ((ReceiptBuilder.new 320).addColumns [{ width := some 30 }, {}, {}]).htmls =
      [headerHtml 320,
       "<div style=\"display: flex; gap: 4px;\"><div style=\"flex: 0 0 30\" class=\"text-content\">undefined</div><div style=\"flex: 1\" class=\"text-content\">undefined</div><div style=\"flex: 1\" class=\"text-content\">undefined</div></div>"] := by
  decide

/-- C8.  A failing QR generation is caught: its message is only warned,
the symbol fragment is omitted and the item still renders to the bare
document (soft failure).  A failing barcode generation propagates and
is fatal to the request.  Both halves hold for every content, width,
alignment and oracle. -/
theorem qr_soft_fail_barcode_fatal (qrErr barErr content barcode_type : String)
    (w : Option Int) (a : Option Alignment) (width : Int)
    (qrGen : String → Except String String)
    (barcodeGen : String → String → Except String String) :
    ImageGenerator (fun _ => .error qrErr) barcodeGen width
        (.known (.qrcode content w a)) =
      .ok ⟨((ReceiptBuilder.new).build).1, [qrErr]⟩
    ∧ ImageGenerator qrGen (fun _ _ => .error barErr) width
        (.known (.barcode content w a barcode_type)) =
      .error barErr := by
  constructor <;> rfl

/-- C3 counterexample.  `addSVG` applied to markup with no `<svg>` tag
does not append a fragment at all (the source warns and returns early),
so the call does not grow the sequence by one as the claim states. -/
theorem addSVG_without_tag_appends_no_fragment :
    ((ReceiptBuilder.new 320).addSVG "a barcode label with no svg tag" 100 .center).htmls.length ≠
      (ReceiptBuilder.new 320).htmls.length + 1 := by
  decide

/-- C3 amended.  Every `addX` call appends its fragments at the end of
the sequence, in call order, never re-ordering or removing prior
fragments; each call appends exactly one fragment, with the single
exception of `addSVG` on markup without an `<svg>` tag, which appends
none. -/
theorem builder_fragments_follow_call_order (b : ReceiptBuilder) (ops : List BuilderOp) :
    (applyOps b ops).htmls = b.htmls ++ ops.filterMap BuilderOp.fragment
    ∧ ∀ op ∈ ops,
        (∀ s w a, op = BuilderOp.svg s w a → (svgTagMatch s).isSome) →
        op.fragment.isSome := by
  refine ⟨applyOps_htmls ops b, ?_⟩
  intro op _ hsvg
  cases op with
  | svg s w a =>
    have h := hsvg s w a rfl
    simp only [BuilderOp.fragment, svgElement]
    cases hm : svgTagMatch s with
    | none => rw [hm] at h; simp at h
    | some m => obtain ⟨full, capture⟩ := m; simp
  | text content opts => simp [BuilderOp.fragment]
  | heading content opts => simp [BuilderOp.fragment]
  | divider opts => simp [BuilderOp.fragment]
  | image src width align => simp [BuilderOp.fragment]
  | columns cols => simp [BuilderOp.fragment]

/-- Witness for the amended C3 theorem at a concrete call sequence. -/
theorem builder_fragments_follow_call_order_witness :
    ((applyOps (ReceiptBuilder.new 320)
        [BuilderOp.heading "STORE" {}, BuilderOp.divider {}]).htmls =
      (ReceiptBuilder.new 320).htmls ++
        [BuilderOp.heading "STORE" {}, BuilderOp.divider {}].filterMap BuilderOp.fragment)
    ∧ (BuilderOp.heading "STORE" {}).fragment.isSome :=
  ⟨(builder_fragments_follow_call_order (ReceiptBuilder.new 320)
      [BuilderOp.heading "STORE" {}, BuilderOp.divider {}]).1,
   (builder_fragments_follow_call_order (ReceiptBuilder.new 320)
      [BuilderOp.heading "STORE" {}]).2 (BuilderOp.heading "STORE" {})
      (by simp) (by intro s w a h; cases h)⟩

/-- When some item of the list is invalid, the batch loop reports an
error (a message that starts with `Element`, hence non-empty). -/
lemma isBatchLoop_ne_of_invalid (l : List Value) (i : Nat)
    (h : ∃ v ∈ l, isBatchParsePayloadItem v ≠ "") : isBatchLoop l i ≠ "" := by
  induction l generalizing i with
  | nil => simp at h
  | cons v rest ih =>
    simp only [isBatchLoop]
    split
    · exact append_ne_empty _ _ (append_ne_empty _ _ (append_ne_empty _ _ (by decide)))
    · rename_i hvalid
      apply ih
      obtain ⟨w, hw, hne⟩ := h
      rcases List.mem_cons.mp hw with rfl | hmem
      · exact (hvalid hne).elim
      · exact ⟨w, hmem, hne⟩

/-- C1.  If any single item of a batch fails validation, the whole
batch pipeline rejects with the validator's message, and it does so
before any rendering: the error outcome is the same for every render
function, so no item is rendered on the rejection path. -/
theorem batch_rejected_before_any_rendering (items : List Value) (k : Nat)
    (hk : k < items.length)
    (hbad : isBatchParsePayloadItem (items.get ⟨k, hk⟩) ≠ "") :
    ∃ msg, msg ≠ "" ∧
      ∀ {α : Type} (render : Value → α),
        ParsePipeline render (.vArr items) = .error msg := by
  have hne : isBatchParsePayloadItemArray (.vArr items) ≠ "" := by
    simp only [isBatchParsePayloadItemArray]
    rw [if_neg (by intro h0; omega)]
    exact isBatchLoop_ne_of_invalid items 0 ⟨items.get ⟨k, hk⟩, items.get_mem _ _, hbad⟩
  refine ⟨isBatchParsePayloadItemArray (.vArr items), hne, ?_⟩
  intro α render
  simp only [ParsePipeline]
  rw [if_pos hne]

/-- Witness for C1 at a concrete batch: the spec's scenario-B image item
with a `src` that is not a URL, preceded by a valid divider item. -/
theorem batch_rejected_before_any_rendering_witness :
    ∃ msg, msg ≠ "" ∧
      ∀ {α : Type} (render : Value → α),
        ParsePipeline render
          (.vArr [.vObj [("type", .vStr "divider")],
                  .vObj [("type", .vStr "image"), ("src", .vStr "not-a-url")]]) =
          .error msg :=
  batch_rejected_before_any_rendering
    [.vObj [("type", .vStr "divider")],
     .vObj [("type", .vStr "image"), ("src", .vStr "not-a-url")]]
    1 (by decide) (by decide)

/-- Every non-empty message of `validators.number` starts with the field
name it was given. -/
lemma number_error_starts_with_field (v : Option Value) (f : String)
    (mn mx : Option Int) (h : validators.number v f mn mx ≠ "") :
    ∃ rest, validators.number v f mn mx = f ++ rest := by
  rcases v with _ | v
  · exact ⟨" must be a number", rfl⟩
  rcases v with _ | b | n | s | xs | fs
  case vNum =>
    rcases mn with _ | m <;> rcases mx with _ | M
    · simp [validators.number, validators.numberMax] at h
    · simp only [validators.number, validators.numberMax] at h ⊢
      split at h
      · rename_i hlt
        exact ⟨" must be at most " ++ toString M,
          by rw [if_pos hlt, String.append_assoc]⟩
      · simp at h
    · simp only [validators.number, validators.numberMax] at h ⊢
      split at h
      · rename_i hlt
        exact ⟨" must be at least " ++ toString m,
          by rw [if_pos hlt, String.append_assoc]⟩
      · simp at h
    · simp only [validators.number, validators.numberMax] at h ⊢
      split at h
      · rename_i hlt
        exact ⟨" must be at least " ++ toString m,
          by rw [if_pos hlt, String.append_assoc]⟩
      · rename_i hge
        split at h
        · rename_i hlt2
          exact ⟨" must be at most " ++ toString M,
            by rw [if_neg hge, if_pos hlt2, String.append_assoc]⟩
        · simp at h
  all_goals exact ⟨" must be a number", rfl⟩

/-- A failing column check always reports a message that begins with
`Column K` for the 1-based column position `K`: the text-payload errors
are prefixed `Column K: `, the width errors use the field name
`Column K width`. -/
lemma checkColumnElementError_starts_with_column (c : Value) (k : Nat)
    (h : checkColumnElementError c k ≠ "") :
    ∃ rest, checkColumnElementError c k = "Column " ++ toString (k + 1) ++ rest := by
  by_cases ht : checkTextElementError c ≠ ""
  · exact ⟨": " ++ checkTextElementError c, by
      simp only [checkColumnElementError, if_pos ht, String.append_assoc]⟩
  · simp only [checkColumnElementError, if_neg ht] at h ⊢
    cases hw : c.get "width" with
    | none => rw [hw] at h; simp at h
    | some wv =>
      rw [hw] at h
      have h' : validators.number (some wv)
          ("Column " ++ toString (k + 1) ++ " width") (some 1) (some 100) ≠ "" := h
      obtain ⟨rest, hrest⟩ :=
        number_error_starts_with_field (some wv)
          ("Column " ++ toString (k + 1) ++ " width") (some 1) (some 100) h'
      refine ⟨" width" ++ rest, ?_⟩
      show validators.number (some wv)
          ("Column " ++ toString (k + 1) ++ " width") (some 1) (some 100) = _
      rw [hrest, String.append_assoc]

/-- The columns loop started at index `i` returns the error of the first
failing column, which sits `k` positions further along. -/
lemma checkColumnsLoop_first (cols : List Value) :
    ∀ (i k : Nat) (hk : k < cols.length),
      (∀ j (hj : j < k), checkColumnElementError (cols.get ⟨j, Nat.lt_trans hj hk⟩) (i + j) = "") →
      checkColumnElementError (cols.get ⟨k, hk⟩) (i + k) ≠ "" →
      checkColumnsLoop cols i = checkColumnElementError (cols.get ⟨k, hk⟩) (i + k) := by
  induction cols with
  | nil => intro i k hk; exact absurd hk (by simp)
  | cons c rest ih =>
    intro i k hk hprev hbad
    cases k with
    | zero =>
      have hc : checkColumnElementError c i ≠ "" := by simpa using hbad
      simp only [checkColumnsLoop, if_pos hc]
      simp
    | succ k' =>
      have h0 : checkColumnElementError c i = "" := by
        simpa using hprev 0 (Nat.succ_pos k')
      simp only [checkColumnsLoop, h0]
      simp only [ne_eq, not_true_eq_false, if_false]
      have hk' : k' < rest.length := by simpa using hk
      have := ih (i + 1) k' hk'
        (fun j hj => by
          have := hprev (j + 1) (by omega)
          simpa [Nat.add_assoc, Nat.add_comm 1 j] using this)
        (by
          have harith : i + 1 + k' = i + (k' + 1) := by omega
          rw [harith]
          simpa using hbad)
      rw [this]
      have harith : i + 1 + k' = i + (k' + 1) := by omega
      simp only [harith]
      rfl

/-- The batch loop started at counter `i` reports the first failing
item, `k` positions along, with the 1-based position `i + k + 1`. -/
lemma isBatchLoop_first (l : List Value) :
    ∀ (i k : Nat) (hk : k < l.length),
      (∀ j (hj : j < k), isBatchParsePayloadItem (l.get ⟨j, Nat.lt_trans hj hk⟩) = "") →
      isBatchParsePayloadItem (l.get ⟨k, hk⟩) ≠ "" →
      isBatchLoop l i =
        "Element " ++ toString (i + k + 1) ++ ": "
          ++ isBatchParsePayloadItem (l.get ⟨k, hk⟩) := by
  induction l with
  | nil => intro i k hk; exact absurd hk (by simp)
  | cons v rest ih =>
    intro i k hk hprev hbad
    cases k with
    | zero =>
      have hv : isBatchParsePayloadItem v ≠ "" := by simpa using hbad
      simp only [isBatchLoop, if_pos hv]
      simp
    | succ k' =>
      have h0 : isBatchParsePayloadItem v = "" := by
        simpa using hprev 0 (Nat.succ_pos k')
      simp only [isBatchLoop, h0]
      simp only [ne_eq, not_true_eq_false, if_false]
      have hk' : k' < rest.length := by simpa using hk
      have := ih (i + 1) k' hk'
        (fun j hj => by
          have := hprev (j + 1) (by omega)
          simpa using this)
        (by simpa using hbad)
      rw [this]
      have harith : i + 1 + k' + 1 = i + (k' + 1) + 1 := by omega
      simp only [harith]
      rfl

/-- C6.  Batch validation checks the items in order and reports the
first invalid one with its 1-based position and reason; and inside a
`columns` item, the first failing column's message begins with its
1-based column index. -/
theorem batch_error_position_and_column_index (items : List Value) (k : Nat)
    (hk : k < items.length)
    (hprev : ∀ j (hj : j < k), isBatchParsePayloadItem (items.get ⟨j, Nat.lt_trans hj hk⟩) = "")
    (hbad : isBatchParsePayloadItem (items.get ⟨k, hk⟩) ≠ "") :
    isBatchParsePayloadItemArray (.vArr items) =
      "Element " ++ toString (k + 1) ++ ": "
        ++ isBatchParsePayloadItem (items.get ⟨k, hk⟩)
    ∧ ∀ (item : Value) (cols : List Value) (c : Nat) (hc : c < cols.length),
        item.get "data" = some (.vArr cols) →
        (∀ j (hj : j < c), checkColumnElementError (cols.get ⟨j, Nat.lt_trans hj hc⟩) j = "") →
        checkColumnElementError (cols.get ⟨c, hc⟩) c ≠ "" →
        ∃ rest, checkColumnsElementError item = "Column " ++ toString (c + 1) ++ rest := by
  constructor
  · simp only [isBatchParsePayloadItemArray]
    rw [if_neg (by intro h0; omega)]
    have := isBatchLoop_first items 0 k hk hprev hbad
    simpa using this
  · intro item cols c hc hdata hcprev hcbad
    have hloop := checkColumnsLoop_first cols 0 c hc
      (fun j hj => by simpa using hcprev j hj)
      (by simpa using hcbad)
    have hcheck : checkColumnsElementError item = checkColumnElementError (cols.get ⟨c, hc⟩) c := by
      simp only [checkColumnsElementError, hdata]
      rw [if_neg (by simp [validators.required]), if_neg (by simp [validators.array]),
        if_neg (by intro h0; omega)]
      simpa using hloop
    rw [hcheck]
    exact checkColumnElementError_starts_with_column _ _ (by simpa using hcbad)

/-- Witness for C6 at a concrete batch: a valid divider followed by a
columns item whose second column has an out-of-range width. -/
theorem batch_error_position_and_column_index_witness :
    (isBatchParsePayloadItemArray
        (.vArr [.vObj [("type", .vStr "divider")],
                .vObj [("type", .vStr "columns"),
                       ("data", .vArr [.vObj [("text", .vStr "ok")],
                                       .vObj [("width", .vNum 0)]])]]) =
      "Element " ++ toString (1 + 1) ++ ": "
        ++ isBatchParsePayloadItem
             ([Value.vObj [("type", .vStr "divider")],
               Value.vObj [("type", .vStr "columns"),
                      ("data", .vArr [.vObj [("text", .vStr "ok")],
                                      .vObj [("width", .vNum 0)]])]].get ⟨1, by decide⟩))
    ∧ ∃ rest,
        checkColumnsElementError
          (.vObj [("type", .vStr "columns"),
                  ("data", .vArr [.vObj [("text", .vStr "ok")],
                                  .vObj [("width", .vNum 0)]])]) =
          "Column " ++ toString (1 + 1) ++ rest :=
  ⟨(batch_error_position_and_column_index
      [.vObj [("type", .vStr "divider")],
       .vObj [("type", .vStr "columns"),
              ("data", .vArr [.vObj [("text", .vStr "ok")], .vObj [("width", .vNum 0)]])]]
      1 (by decide)
      (by intro j hj; have hj0 : j = 0 := by omega
          subst hj0; rfl)
      (by decide)).1,
   (batch_error_position_and_column_index
      [.vObj [("type", .vStr "divider")],
       .vObj [("type", .vStr "columns"),
              ("data", .vArr [.vObj [("text", .vStr "ok")], .vObj [("width", .vNum 0)]])]]
      1 (by decide)
      (by intro j hj; have hj0 : j = 0 := by omega
          subst hj0; rfl)
      (by decide)).2
     (.vObj [("type", .vStr "columns"),
             ("data", .vArr [.vObj [("text", .vStr "ok")], .vObj [("width", .vNum 0)]])])
     [.vObj [("text", .vStr "ok")], .vObj [("width", .vNum 0)]]
     1 (by decide) rfl
     (by intro j hj; have hj0 : j = 0 := by omega
         subst hj0; rfl)
     (by decide)⟩

/-- C5.  An item whose `type` discriminator is not one of the seven
recognized kinds is rejected by the validator with the unknown-kind
message; and an unrecognized kind reaching the generation dispatch
makes `ImageGenerator` throw its unhandled-component error rather than
silently skipping (so it never touches a Document Builder). -/
theorem unknown_kind_rejected_and_dispatch_raises
    (fields : List (String × Value)) (t : Value)
    (hty : (Value.vObj fields).get "type" = some t)
    (hunk : ∀ s, t = .vStr s → s ∉ COMPONENT_TYPES) :
    isBatchParsePayloadItem (.vObj fields) =
      "Invalid type \x27" ++ t.jsString ++ "\x27. Must be one of: "
        ++ joinWith ", " COMPONENT_TYPES
    ∧ ∀ (raw : Value) (width : Int)
        (qr : String → Except String String)
        (barcodeGen : String → String → Except String String),
        ImageGenerator qr barcodeGen width (.unknownKind raw) =
          .error ("Unhandled component type: " ++ jsonStringify raw) := by
  constructor
  · rcases t with _ | b | n | s | xs | fs
    case vStr =>
      have hc : COMPONENT_TYPES.contains s = false := by simpa using hunk s rfl
      simp only [isBatchParsePayloadItem, hty]
      simp only [hc]
      simp
    all_goals
      simp only [isBatchParsePayloadItem, hty]
      simp
  · intro raw width qr barcodeGen
    rfl

/-- Witness for C5: the spec's `sparkle` item is rejected with the
unknown-kind message, and a raw `sparkle` object reaching the dispatch
raises. -/
theorem unknown_kind_rejected_and_dispatch_raises_witness :
    isBatchParsePayloadItem (.vObj [("type", .vStr "sparkle")]) =
      "Invalid type \x27" ++ (Value.vStr "sparkle").jsString ++ "\x27. Must be one of: "
        ++ joinWith ", " COMPONENT_TYPES
    ∧ ∀ (raw : Value) (width : Int)
        (qr : String → Except String String)
        (barcodeGen : String → String → Except String String),
        ImageGenerator qr barcodeGen width (.unknownKind raw) =
          .error ("Unhandled component type: " ++ jsonStringify raw) :=
  unknown_kind_rejected_and_dispatch_raises [("type", .vStr "sparkle")]
    (.vStr "sparkle") rfl
    (by intro s h; injection h with h1; subst h1; decide)

/-- C7.  The validator accepts an image item's `src` exactly under the
spec's condition (a non-empty string with an `http://`, `https://` or
`data:` head): acceptance implies the condition; when the condition
fails the item is rejected with a message naming `src`; and a batch
containing such an image item is rejected identically for every render
function, so rejection happens before any rasterization. -/
theorem image_src_validation (data : Value) :
    (checkImageElementError data = "" → specSrcAccepted data = true)
    ∧ (specSrcAccepted data = false →
        checkImageElementError data ≠ "" ∧
        ∃ rest, checkImageElementError data = "Image src" ++ rest)
    ∧ (∀ fields, data = .vObj fields →
        data.get "type" = some (.vStr "image") →
        specSrcAccepted data = false →
        ∃ msg, msg ≠ "" ∧
          ∀ {α : Type} (render : Value → α),
            ParsePipeline render (.vArr [data]) = .error msg) := by
  have key : specSrcAccepted data = false →
      checkImageElementError data ≠ "" ∧
        ∃ rest, checkImageElementError data = "Image src" ++ rest := by
    intro hspec
    cases hsrc : data.get "src" with
    | none =>
      constructor
      · simp only [checkImageElementError, hsrc]
        simp [validators.required]
      · refine ⟨" is required", ?_⟩
        simp only [checkImageElementError, hsrc]
        simp [validators.required]
    | some v =>
      rcases v with _ | b | n | s | xs | fs
      case vNull =>
        constructor
        · simp only [checkImageElementError, hsrc]
          simp [validators.required]
        · refine ⟨" is required", ?_⟩
          simp only [checkImageElementError, hsrc]
          simp [validators.required]
      case vStr =>
        by_cases hs : s = ""
        · subst hs
          constructor
          · simp only [checkImageElementError, hsrc]
            simp [validators.required]
          · refine ⟨" is required", ?_⟩
            simp only [checkImageElementError, hsrc]
            simp [validators.required]
        · have hreq : validators.required (some (.vStr s)) "Image src" = "" := by
            unfold validators.required
            split <;> simp_all
          have hpre : validators.jsStartsWith s "http://" = false ∧
              validators.jsStartsWith s "https://" = false ∧
              validators.jsStartsWith s "data:" = false := by
            simp [specSrcAccepted, hsrc, hs] at hspec
            obtain ⟨⟨h1, h2⟩, h3⟩ := hspec
            exact ⟨h1, h2, h3⟩
          constructor
          · simp only [checkImageElementError, hsrc]
            simp [hreq, validators.url, hpre.1, hpre.2.1, hpre.2.2]
          · refine ⟨" must be a valid URL or data URL", ?_⟩
            simp only [checkImageElementError, hsrc]
            simp [hreq, validators.url, hpre.1, hpre.2.1, hpre.2.2]
      all_goals
        constructor
        · simp only [checkImageElementError, hsrc]
          simp [validators.required, validators.url]
        · refine ⟨" must be a string", ?_⟩
          simp only [checkImageElementError, hsrc]
          simp [validators.required, validators.url]
  have acc : checkImageElementError data = "" → specSrcAccepted data = true := by
    intro hok
    by_contra habs
    have hfalse : specSrcAccepted data = false := by
      cases hcase : specSrcAccepted data
      · rfl
      · exact absurd hcase habs
    exact (key hfalse).1 hok
  refine ⟨acc, key, ?_⟩
  intro fields hfields htype hspec
  subst hfields
  have hitem : isBatchParsePayloadItem (.vObj fields) ≠ "" := by
    simp only [isBatchParsePayloadItem, htype]
    simp only [COMPONENT_TYPES]
    simp only [List.contains_cons]
    simp
    exact (key hspec).1
  have hne : isBatchParsePayloadItemArray (.vArr [.vObj fields]) ≠ "" := by
    simp only [isBatchParsePayloadItemArray]
    rw [if_neg (by simp)]
    exact isBatchLoop_ne_of_invalid _ 0 ⟨.vObj fields, by simp, hitem⟩
  refine ⟨isBatchParsePayloadItemArray (.vArr [.vObj fields]), hne, ?_⟩
  intro α render
  simp only [ParsePipeline]
  rw [if_pos hne]

/-- Witness for C7 at the spec's scenario-B input: `src = "not-a-url"`
is rejected with a message naming `src`. -/
theorem image_src_validation_witness :
    checkImageElementError (.vObj [("type", .vStr "image"), ("src", .vStr "not-a-url")]) ≠ "" ∧
    ∃ rest, checkImageElementError (.vObj [("type", .vStr "image"), ("src", .vStr "not-a-url")]) =
      "Image src" ++ rest :=
  (image_src_validation (.vObj [("type", .vStr "image"), ("src", .vStr "not-a-url")])).2.1
    (by decide)

/-- The heading check reads only `text`, `size` and `align`. -/
lemma checkHeading_congr (d1 d2 : Value)
    (ht : d1.get "text" = d2.get "text")
    (hs : d1.get "size" = d2.get "size")
    (ha : d1.get "align" = d2.get "align") :
    checkHeadingElementError d1 = checkHeadingElementError d2 := by
  simp only [checkHeadingElementError, ht, hs, ha]

/-- The text check reads only its six styling fields. -/
lemma checkText_congr (d1 d2 : Value)
    (ht : d1.get "text" = d2.get "text")
    (hs : d1.get "size" = d2.get "size")
    (hth : d1.get "thickness" = d2.get "thickness")
    (hi : d1.get "italic" = d2.get "italic")
    (hu : d1.get "underline" = d2.get "underline")
    (ha : d1.get "align" = d2.get "align") :
    checkTextElementError d1 = checkTextElementError d2 := by
  simp only [checkTextElementError, ht, hs, hth, hi, hu, ha]

/-- The divider check reads only `thickness` and `style`. -/
lemma checkDivider_congr (d1 d2 : Value)
    (hth : d1.get "thickness" = d2.get "thickness")
    (hst : d1.get "style" = d2.get "style") :
    checkDividerElementError d1 = checkDividerElementError d2 := by
  simp only [checkDividerElementError, hth, hst]

/-- The columns check reads only `data`. -/
lemma checkColumns_congr (d1 d2 : Value)
    (hd : d1.get "data" = d2.get "data") :
    checkColumnsElementError d1 = checkColumnsElementError d2 := by
  simp only [checkColumnsElementError, hd]

/-- The image check reads only `src`, `width` and `align`. -/
lemma checkImage_congr (d1 d2 : Value)
    (hsrc : d1.get "src" = d2.get "src")
    (hw : d1.get "width" = d2.get "width")
    (ha : d1.get "align" = d2.get "align") :
    checkImageElementError d1 = checkImageElementError d2 := by
  simp only [checkImageElementError, hsrc, hw, ha]

/-- The qrcode check reads only `content`, `width` and `align`. -/
lemma checkQRCode_congr (d1 d2 : Value)
    (hc : d1.get "content" = d2.get "content")
    (hw : d1.get "width" = d2.get "width")
    (ha : d1.get "align" = d2.get "align") :
    checkQRCodeElementError d1 = checkQRCodeElementError d2 := by
  simp only [checkQRCodeElementError, hc, hw, ha]

/-- The barcode check reads only `content`, `barcode_type`, `width` and
`align`. -/
lemma checkBarCode_congr (d1 d2 : Value)
    (hc : d1.get "content" = d2.get "content")
    (hb : d1.get "barcode_type" = d2.get "barcode_type")
    (hw : d1.get "width" = d2.get "width")
    (ha : d1.get "align" = d2.get "align") :
    checkBarCodeElementError d1 = checkBarCodeElementError d2 := by
  simp only [checkBarCodeElementError, hc, hb, hw, ha]

/-- C9.  For a recognized kind, validation depends only on that kind's
schema fields: two items of the same kind that agree on every schema
field validate to the same result, so adding or removing fields outside
the schema (unknown/extra fields) never changes the outcome. -/
theorem validation_ignores_extra_fields (kind : String)
    (f1 f2 : List (String × Value))
    (hkind : kind ∈ COMPONENT_TYPES)
    (h1 : (Value.vObj f1).get "type" = some (.vStr kind))
    (h2 : (Value.vObj f2).get "type" = some (.vStr kind))
    (hagree : ∀ name ∈ schemaFields kind,
      (Value.vObj f1).get name = (Value.vObj f2).get name) :
    isBatchParsePayloadItem (.vObj f1) = isBatchParsePayloadItem (.vObj f2) := by
  have hcases : kind = "heading" ∨ kind = "text" ∨ kind = "divider" ∨
      kind = "columns" ∨ kind = "image" ∨ kind = "qrcode" ∨ kind = "barcode" := by
    simpa [COMPONENT_TYPES] using hkind
  rcases hcases with rfl | rfl | rfl | rfl | rfl | rfl | rfl
  · simp only [isBatchParsePayloadItem, h1, h2]
    show checkHeadingElementError (.vObj f1) = checkHeadingElementError (.vObj f2)
    exact checkHeading_congr _ _
      (hagree "text" (by simp [schemaFields]))
      (hagree "size" (by simp [schemaFields]))
      (hagree "align" (by simp [schemaFields]))
  · simp only [isBatchParsePayloadItem, h1, h2]
    show checkTextElementError (.vObj f1) = checkTextElementError (.vObj f2)
    exact checkText_congr _ _
      (hagree "text" (by simp [schemaFields]))
      (hagree "size" (by simp [schemaFields]))
      (hagree "thickness" (by simp [schemaFields]))
      (hagree "italic" (by simp [schemaFields]))
      (hagree "underline" (by simp [schemaFields]))
      (hagree "align" (by simp [schemaFields]))
  · simp only [isBatchParsePayloadItem, h1, h2]
    show checkDividerElementError (.vObj f1) = checkDividerElementError (.vObj f2)
    exact checkDivider_congr _ _
      (hagree "thickness" (by simp [schemaFields]))
      (hagree "style" (by simp [schemaFields]))
  · simp only [isBatchParsePayloadItem, h1, h2]
    show checkColumnsElementError (.vObj f1) = checkColumnsElementError (.vObj f2)
    exact checkColumns_congr _ _ (hagree "data" (by simp [schemaFields]))
  · simp only [isBatchParsePayloadItem, h1, h2]
    show checkImageElementError (.vObj f1) = checkImageElementError (.vObj f2)
    exact checkImage_congr _ _
      (hagree "src" (by simp [schemaFields]))
      (hagree "width" (by simp [schemaFields]))
      (hagree "align" (by simp [schemaFields]))
  · simp only [isBatchParsePayloadItem, h1, h2]
    show checkQRCodeElementError (.vObj f1) = checkQRCodeElementError (.vObj f2)
    exact checkQRCode_congr _ _
      (hagree "content" (by simp [schemaFields]))
      (hagree "width" (by simp [schemaFields]))
      (hagree "align" (by simp [schemaFields]))
  · simp only [isBatchParsePayloadItem, h1, h2]
    show checkBarCodeElementError (.vObj f1) = checkBarCodeElementError (.vObj f2)
    exact checkBarCode_congr _ _
      (hagree "content" (by simp [schemaFields]))
      (hagree "barcode_type" (by simp [schemaFields]))
      (hagree "width" (by simp [schemaFields]))
      (hagree "align" (by simp [schemaFields]))

/-- Witness for C9: two divider items carrying different unrelated extra
fields validate identically. -/
theorem validation_ignores_extra_fields_witness :
    isBatchParsePayloadItem
        (.vObj [("type", .vStr "divider"), ("junk", .vNum 1)]) =
      isBatchParsePayloadItem
        (.vObj [("type", .vStr "divider"), ("note", .vStr "x"), ("more", .vBool true)]) :=
  validation_ignores_extra_fields "divider"
    [("type", .vStr "divider"), ("junk", .vNum 1)]
    [("type", .vStr "divider"), ("note", .vStr "x"), ("more", .vBool true)]
    (by decide) rfl rfl
    (by intro name h; fin_cases h <;> rfl)

end ReceiptImage
